import Mathlib

/-!
Verification development for the `semantic_scholar_search` repository.

The definitions below are a shallow embedding of
`src/semantic_scholar_search/base/download.py` (class `Downloader`).
Effectful operations (HTTP requests, file writes) are modelled by an
explicit environment value describing the outcome the outside world
would produce for each operation; an operation that raises a Python
exception is modelled by the corresponding environment field saying so
(`none` for a raising request, `false` for a raising write), and the
orchestrator's `try/except` block is modelled by explicit short-circuit
propagation to a handler, exactly following the source control flow.
-/

namespace SSS

/-!
Python string primitives, re-implemented on character lists so that all
definitions reduce by computation (`str.lower`, `str.startswith`,
`str.endswith`, `str.strip`, `str.replace`, `str.split`, `str.join`).
-/

/-- Python `s.lower()`. -/
def pyLower (s : String) : String := String.mk (s.data.map Char.toLower)

/-- Python `s.startswith(pre)`. -/
def pyStartsWith (s pre : String) : Bool := pre.data.isPrefixOf s.data

/-- Python `s.endswith(suf)`. -/
def pyEndsWith (s suf : String) : Bool := suf.data.isSuffixOf s.data

/-- Python `s.strip()`: drop leading and trailing whitespace. -/
def pyStrip (s : String) : String :=
  String.mk
    (((s.data.dropWhile Char.isWhitespace).reverse.dropWhile
      Char.isWhitespace).reverse)

/-- Worker for `pyReplace`: left-to-right non-overlapping replacement of
`pat` by `rep`; the `Nat` argument counts characters of a just-matched
pattern occurrence still to be skipped. -/
def replaceAux (pat rep : List Char) : Nat → List Char → List Char
  | _, [] => []
  | k + 1, _ :: t => replaceAux pat rep k t
  | 0, c :: t =>
    if !pat.isEmpty && pat.isPrefixOf (c :: t) then
      rep ++ replaceAux pat rep (pat.length - 1) t
    else c :: replaceAux pat rep 0 t

/-- Python `s.replace(pat, rep)` (all occurrences, left to right,
non-overlapping; `pat` non-empty in every use in this code). -/
def pyReplace (s pat rep : String) : String :=
  String.mk (replaceAux pat.data rep.data 0 s.data)

/-- Split a character list at every occurrence of `sep`; the
accumulator holds the current chunk reversed. -/
def splitOnCharAux (sep : Char) : List Char → List Char → List (List Char)
  | acc, [] => [acc.reverse]
  | acc, c :: t =>
    if c == sep then acc.reverse :: splitOnCharAux sep [] t
    else splitOnCharAux sep (c :: acc) t

/-- Python `s.split(sep)` for a one-character separator. -/
def pySplitOn (s : String) (sep : Char) : List String :=
  (splitOnCharAux sep [] s.data).map String.mk

/-- Python `sep.join(parts)`. -/
def pyJoin (sep : String) : List String → String
  | [] => ""
  | [x] => x
  | x :: y :: t => x ++ sep ++ pyJoin sep (y :: t)

/-- Characters kept by the Python sanitizers:
`c.isalnum() or c in (" ", "-", "_")` (download.py lines 65-66, 119-120). -/
def allowedChar (c : Char) : Bool :=
  c.isAlphanum || c == ' ' || c == '-' || c == '_'

/-- Python `str.rstrip()`: drop trailing whitespace characters. -/
def rstripWs (s : String) : String :=
  String.mk (((s.data.reverse).dropWhile Char.isWhitespace).reverse)

/-- `safe_title` computation of download.py lines 119-121:
keep alphanumerics, space, hyphen, underscore, then rstrip. -/
def sanitizeTitle (s : String) : String :=
  rstripWs (String.mk (s.data.filter allowedChar))

/-- `safe_query` computation of download.py lines 65-68: same filter and
rstrip as the title, then spaces replaced by underscores. -/
def sanitizeQuery (s : String) : String :=
  pyReplace (sanitizeTitle s) " " "_"

/-- `os.path.join` on relative path components. -/
def joinPath (a b : String) : String := a ++ "/" ++ b

/-- The `download_stats` dictionary initialised in `Downloader.__init__`
(download.py lines 53-59). -/
structure DownloadStats where
  total : Nat
  open_access_success : Nat
  semantic_reader_success : Nat
  arxiv_success : Nat
  failed : Nat
deriving Repr, DecidableEq

/-- All counters start at zero (download.py lines 53-59). -/
def initStats : DownloadStats :=
  { total := 0, open_access_success := 0, semantic_reader_success := 0,
    arxiv_success := 0, failed := 0 }

/-- The statistics invariant claimed by the spec:
`total == sum(per-strategy successes) + failed`. -/
def statsInvariant (s : DownloadStats) : Prop :=
  s.total = s.open_access_success + s.semantic_reader_success
      + s.arxiv_success + s.failed

instance (s : DownloadStats) : Decidable (statsInvariant s) := by
  unfold statsInvariant; infer_instance

/-- Configuration fields of `Downloader` relevant to directory and
filename computation (download.py `__init__`, lines 14-62; `db` and the
logger are external collaborators and are not part of the pure state). -/
structure Downloader where
  search_query : String
  bulk : Bool
  max_pages : Nat
  max_results_per_page : Nat
  sort : String
  min_citation_count : Nat
  session_id : String
  output_dir : String
  fields_of_study : Option (List String)
  publication_date_or_year : Option String
deriving Repr, DecidableEq

/-- `Downloader.__init__` logic for the fields kept in `Downloader`:
in bulk mode `max_results_per_page` is forced to 1000 and `sort` is kept;
otherwise `sort` is forced to `"relevance:desc"`
(download.py lines 34-39). -/
def mkDownloader (search_query : String) (bulk : Bool) (max_pages : Nat)
    (max_results_per_page : Nat) (sort : String) (min_citation_count : Nat)
    (session_id : String) (output_dir : String)
    (fields_of_study : Option (List String))
    (publication_date_or_year : Option String) : Downloader :=
  { search_query := search_query
    bulk := bulk
    max_pages := max_pages
    max_results_per_page := if bulk then 1000 else max_results_per_page
    sort := if bulk then sort else "relevance:desc"
    min_citation_count := min_citation_count
    session_id := session_id
    output_dir := output_dir
    fields_of_study := fields_of_study
    publication_date_or_year := publication_date_or_year }

/-- `Downloader.get_directory` (download.py lines 64-86). -/
def getDirectory (d : Downloader) : String :=
  let safe_query := sanitizeQuery d.search_query
  let sort_by := pyJoin "_" (pySplitOn d.sort ':')
  let fos_path :=
    match d.fields_of_study with
    | some fos => "_fos_" ++ pyJoin "_" fos
    | none => ""
  let date_path :=
    match d.publication_date_or_year with
    | some p => "_date_" ++ pyReplace p ":" "_to_"
    | none => ""
  joinPath d.output_dir (joinPath safe_query (joinPath
    ("top_" ++ toString d.max_pages ++ "_pages_"
      ++ toString d.max_results_per_page ++ "_per_page_sort_by_" ++ sort_by
      ++ "_min_citation_count_" ++ toString d.min_citation_count
      ++ fos_path ++ date_path)
    d.session_id))

/-- The `paper.openAccessPdf` value, which download.py lines 129-133
probes for shape: an object exposing a `url` attribute
(`hasattr(paper.openAccessPdf, "url")`) or a plain mapping queried with
`.get("url")`.  Either shape may or may not actually carry a URL. -/
inductive PdfRef where
  | attrRef (url : Option String)
  | mapRef (url : Option String)
deriving Repr, DecidableEq

/-- The `pdf_url` expression of download.py lines 129-133: the attribute
when the object has one, otherwise the mapping lookup. -/
def pdfUrlOf : PdfRef → Option String
  | .attrRef u => u
  | .mapRef u => u

/-- Paper metadata fields read by `Downloader.download_paper`.
`url` and `arxivId` are `Option` because the code guards them with
`hasattr` (download.py lines 160, 173); `none` models a missing
attribute. -/
structure Paper where
  title : String
  isOpenAccess : Bool
  openAccessPdf : Option PdfRef
  url : Option String
  arxivId : Option String
deriving Repr, DecidableEq

/-- An HTTP response as consumed by download.py: status code, the
(possibly defaulted-empty) content-type header, and the body bytes. -/
structure HttpResp where
  status : Nat
  contentType : String
  content : List Nat
deriving Repr, DecidableEq

/-- Content written to a file: binary PDF bytes or a text manifest. -/
inductive FileData where
  | bin (content : List Nat)
  | txt (content : String)
deriving Repr, DecidableEq

/-- Environment describing the outcome of each effectful operation
performed by one `download_paper` call:
* `dirExists` — result of the `os.path.exists` check (line 113);
* `oaResp` — outcome of `requests.get(pdf_url, ...)` (line 138),
  `none` meaning the request raised;
* `oaWriteOk` — whether the `open(base_filename, "wb")` write
  (lines 144-145) succeeds, `false` meaning it raised;
* `srSuccess` / `srContent` — result of `_try_semantic_reader`
  (lines 320-405), which catches all its own exceptions and returns a
  boolean, writing `base_filename` on success;
* `arxivWriteOk` — whether the links-file write (lines 193-197)
  succeeds, `false` meaning it raised. -/
structure DownloadEnv where
  dirExists : Bool
  oaResp : Option HttpResp
  oaWriteOk : Bool
  srSuccess : Bool
  srContent : List Nat
  arxivWriteOk : Bool
deriving Repr, DecidableEq

/-- Mutable state of one `download_paper` call while inside the `try`
block: the statistics, `download_success`, `download_method`,
`base_filename` (reassigned to the links file in the arXiv branch and to
`None` on failure), the files written so far, and which strategies have
been attempted (instrumentation for the ordering properties). -/
structure TryState where
  stats : DownloadStats
  success : Bool
  method : Option String
  filename : Option String
  written : List (String × FileData)
  oaAtt : Bool
  srAtt : Bool
  arxAtt : Bool
deriving Repr, DecidableEq

/-- First try: open-access papers (download.py lines 127-157).  Returns
the updated state and whether an exception escaped (to the orchestrator
`except` handler).  The write happens before the counter increment, as
in the source (lines 144-148). -/
def oaStep (p : Paper) (env : DownloadEnv) (base : String)
    (st : TryState) : TryState × Bool :=
  match p.openAccessPdf with
  | some ref =>
    if p.isOpenAccess then
      match pdfUrlOf ref with
      | some u =>
        if u = "" then (st, false)
        else
          let st := { st with oaAtt := true }
          match env.oaResp with
          | none => (st, true)
          | some r =>
            if r.status == 200
                && pyStartsWith (pyLower r.contentType) "application/pdf" then
              if env.oaWriteOk then
                ({ st with
                    written := st.written ++ [(base, FileData.bin r.content)]
                    success := true
                    method := some "open_access"
                    stats := { st.stats with
                      open_access_success := st.stats.open_access_success + 1 } },
                  false)
              else (st, true)
            else (st, false)
      | none => (st, false)
    else (st, false)
  | none => (st, false)

/-- Second try: Semantic Reader (download.py lines 160-170).
`_try_semantic_reader` catches all its exceptions and returns a boolean,
so this step never raises; on success it has written `base_filename`
through `_handle_pdf_download`. -/
def srStep (p : Paper) (env : DownloadEnv) (base : String)
    (st : TryState) : TryState :=
  if !st.success && p.url.isSome then
    let st := { st with srAtt := true }
    if env.srSuccess then
      { st with
          written := st.written ++ [(base, FileData.bin env.srContent)]
          success := true
          method := some "semantic_reader"
          stats := { st.stats with
            semantic_reader_success := st.stats.semantic_reader_success + 1 } }
    else st
  else st

/-- The contents of the links file written by the arXiv branch
(download.py lines 193-197). -/
def arxivLinksText (title aid abstractUrl pdfUrl : String) : String :=
  "Title: " ++ title ++ "\n"
    ++ "ArXiv ID: " ++ aid ++ "\n"
    ++ "Abstract page: " ++ abstractUrl ++ "\n"
    ++ "PDF download: " ++ pdfUrl ++ "\n"

/-- Third try: arXiv papers (download.py lines 172-200).  Success,
method and the arxiv counter are recorded BEFORE the links file is
written (lines 186-189 precede lines 192-197); the write may raise, in
which case the partially updated state escapes to the handler.  On a
successful write, `base_filename` is reassigned to the text file
(line 199) whose name is obtained by replacing every occurrence of
`".pdf"` with `"_arxiv_links.txt"` (line 192). -/
def arxivStep (p : Paper) (env : DownloadEnv) (base : String)
    (st : TryState) : TryState × Bool :=
  match p.arxivId with
  | some aidRaw =>
    if !st.success then
      let st := { st with arxAtt := true }
      let aid := pyStrip aidRaw
      let abstractUrl := "https://arxiv.org/abs/" ++ aid
      let pdfUrl := "https://arxiv.org/pdf/" ++ aid ++ ".pdf"
      let st := { st with
          success := true
          method := some "arxiv"
          stats := { st.stats with
            arxiv_success := st.stats.arxiv_success + 1 } }
      let txtName := pyReplace base ".pdf" "_arxiv_links.txt"
      if env.arxivWriteOk then
        ({ st with
            written := st.written
              ++ [(txtName, FileData.txt
                    (arxivLinksText p.title aid abstractUrl pdfUrl))]
            filename := some txtName },
          false)
      else (st, true)
    else (st, false)
  | none => (st, false)

/-- The orchestrator `except` handler (download.py lines 209-213):
`base_filename = None`, `download_success = False`, `failed += 1`.
Note that `download_method` is NOT reset. -/
def exnHandler (st : TryState) : TryState :=
  { st with
      filename := none
      success := false
      stats := { st.stats with failed := st.stats.failed + 1 } }

instance {ε α : Type} [DecidableEq ε] [DecidableEq α] :
    DecidableEq (Except ε α) := fun a b =>
  match a, b with
  | .error e1, .error e2 =>
    if h : e1 = e2 then .isTrue (by rw [h]) else .isFalse (by simp [h])
  | .ok a1, .ok a2 =>
    if h : a1 = a2 then .isTrue (by rw [h]) else .isFalse (by simp [h])
  | .error _, .ok _ => .isFalse (by simp)
  | .ok _, .error _ => .isFalse (by simp)

/-- Overall result of one `download_paper` call: final statistics, the
return value (`Except.error ()` models the precondition `ValueError`),
the `record_paper` calls made (path, success flag), the files written,
the strategies attempted, and whether an exception was caught by the
orchestrator handler. -/
structure DPResult where
  stats : DownloadStats
  ret : Except Unit (Option String × Option String)
  recorded : List (Option String × Bool)
  written : List (String × FileData)
  oaAtt : Bool
  srAtt : Bool
  arxAtt : Bool
  raised : Bool
deriving Repr, DecidableEq

/-- Package a final `TryState` into the call result: `record_paper` is
invoked exactly once (download.py line 216) with the current
`base_filename` and `download_success`, and `(base_filename,
download_method)` is returned (line 218). -/
def mkResult (st : TryState) (raised : Bool) : DPResult :=
  { stats := st.stats
    ret := .ok (st.filename, st.method)
    recorded := [(st.filename, st.success)]
    written := st.written
    oaAtt := st.oaAtt
    srAtt := st.srAtt
    arxAtt := st.arxAtt
    raised := raised }

/-- The base filename of download.py lines 119-122:
`os.path.join(self.get_directory(), safe_title + ".pdf")`. -/
def baseFilenameOf (d : Downloader) (title : String) : String :=
  joinPath (getDirectory d) (sanitizeTitle title ++ ".pdf")

/-- The state at the top of the `try` block of `download_paper`
(download.py lines 111-125): total already incremented, no success yet,
no method, `base_filename` set, nothing written or attempted. -/
def initTry (stats : DownloadStats) (base : String) : TryState :=
  { stats := { stats with total := stats.total + 1 }
    success := false, method := none
    filename := some base, written := []
    oaAtt := false, srAtt := false, arxAtt := false }

/-- The `try`/`except` block of `download_paper` (download.py lines
126-213): the three strategies in source order — open access, Semantic
Reader, arXiv — with an escaping exception routed to `exnHandler`, and
the no-success epilogue of lines 204-207 clearing `base_filename` and
incrementing the failure counter.  Returns the final state and whether
an exception was caught. -/
def tryPipeline (p : Paper) (env : DownloadEnv) (base : String)
    (st0 : TryState) : TryState × Bool :=
  match oaStep p env base st0 with
  | (st1, true) => (exnHandler st1, true)
  | (st1, false) =>
    match arxivStep p env base (srStep p env base st1) with
    | (st3, true) => (exnHandler st3, true)
    | (st3, false) =>
      if !st3.success then
        ({ st3 with
            filename := none
            stats := { st3.stats with failed := st3.stats.failed + 1 } },
          false)
      else (st3, false)

/-- `Downloader.download_paper` (download.py lines 103-218).
The total counter is incremented first (line 111); a missing target
directory then raises `ValueError` (lines 113-116) before any strategy
or recording.  Otherwise the `try` block `tryPipeline` runs; finally the
paper is recorded exactly once (line 216) and
`(base_filename, download_method)` returned (line 218). -/
def downloadPaper (d : Downloader) (stats : DownloadStats) (p : Paper)
    (env : DownloadEnv) : DPResult :=
  if !env.dirExists then
    { stats := { stats with total := stats.total + 1 }
      ret := .error (), recorded := [], written := []
      oaAtt := false, srAtt := false, arxAtt := false, raised := false }
  else
    let base := baseFilenameOf d p.title
    let r := tryPipeline p env base (initTry stats base)
    mkResult r.1 r.2

/-- `self.ARXIV_RATE_LIMIT = 3` — minimum seconds between arXiv
requests (download.py line 62). -/
def ARXIV_RATE_LIMIT : ℚ := 3

/-- `Downloader._respect_arxiv_rate_limit` (download.py lines 91-101),
with wall-clock time modelled explicitly: `lastReq` is the stored
`last_arxiv_request_time`, `now` is the first `time.time()` sample, and
sleeping for `s` seconds plus non-negative scheduling overhead `eps`
makes the second `time.time()` sample (line 101, taken AFTER the sleep)
equal `now + s + eps`.  Returns the sleep duration and the new
`last_arxiv_request_time`. -/
def respectArxivRateLimit (lastReq now eps : ℚ) : ℚ × ℚ :=
  let time_since_last_request := now - lastReq
  let sleep_time :=
    if time_since_last_request < ARXIV_RATE_LIMIT then
      ARXIV_RATE_LIMIT - time_since_last_request
    else 0
  (sleep_time, now + sleep_time + eps)

/-- The 5-byte PDF signature `%PDF-` as bytes. -/
def pdfMagic : List Nat := [37, 80, 68, 70, 45]

/-- `response.content.startswith(b"%PDF-")`. -/
def startsWithMagic (c : List Nat) : Bool := pdfMagic.isPrefixOf c

/-- Substring test on character lists (Python `pat in hay`). -/
def hasSub (pat : List Char) : List Char → Bool
  | [] => pat.isEmpty
  | c :: t => pat.isPrefixOf (c :: t) || hasSub pat t

/-- Python `pat in hay` on strings. -/
def strContainsSub (hay pat : String) : Bool := hasSub pat.data hay.data

/-- Environment for one `_handle_pdf_download` call: the outcome of the
direct GET of `pdf_url` and, when consulted, of the retry against the
URL with `.pdf` appended.  `none` models the request raising
(timeout/connection error); a status ≥ 400 models `raise_for_status`
raising `HTTPError`.  All of these are caught by the handlers at
download.py lines 303-318, which return `False`. -/
structure PdfDlEnv where
  firstResp : Option HttpResp
  altResp : Option HttpResp
deriving Repr, DecidableEq

/-- `Downloader._handle_pdf_download` (download.py lines 254-318):
GET the URL; settle on its body if the declared content type contains
`application/pdf` or the body already carries the PDF signature;
otherwise, if the URL lacks a `.pdf` suffix, retry once with `.pdf`
appended and settle on that body.  Write `base` and report success only
if the settled bytes begin with `%PDF-` (lines 292-301).  Any request
exception or HTTP error yields `(false, no write)`.
(`requests.utils.requote_uri` only re-encodes the URL and is the
identity on the URLs modelled here.) -/
def handlePdfDownload (pdf_url base : String) (env : PdfDlEnv) :
    Bool × List (String × FileData) :=
  match env.firstResp with
  | none => (false, [])
  | some r =>
    if r.status ≥ 400 then (false, [])
    else
      let content_type := pyLower r.contentType
      let contentOpt :=
        if strContainsSub content_type "application/pdf"
            || startsWithMagic r.content then
          some r.content
        else if !(pyEndsWith (pyLower pdf_url) ".pdf") then
          match env.altResp with
          | none => none
          | some r2 => if r2.status ≥ 400 then none else some r2.content
        else some r.content
      match contentOpt with
      | none => (false, [])
      | some content =>
        if startsWithMagic content then
          (true, [(base, FileData.bin content)])
        else (false, [])

/-- A `paper.journal` reference: a named source with an optional
volume/locator field. -/
structure JournalRef where
  name : String
  volume : Option String
deriving Repr, DecidableEq

/-- Paper metadata consumed by the identifier extractor: source-hint
journal, landing-page URL, structured external-identifier mapping, and
the list of alternate-version URLs. -/
structure ArchivePaperMeta where
  journal : Option JournalRef
  url : Option String
  externalIds : List (String × String)
  alternateVersions : List String
deriving Repr, DecidableEq

/-- `[] ≠ l` and every character is a digit. -/
def isDigitSeq (l : List Char) : Bool := !l.isEmpty && l.all Char.isDigit

/-- Optional version suffix: empty, or `v` followed by digits. -/
def matchOptVersion : List Char → Bool
  | [] => true
  | 'v' :: rest => isDigitSeq rest
  | _ => false

/-- Modern dotted numeric identifier shape: digits, a dot, digits,
optionally versioned (e.g. `2101.12345` or `2101.12345v2`). -/
def matchModernId (l : List Char) : Bool :=
  let d1 := l.takeWhile Char.isDigit
  let rest := l.drop d1.length
  if d1.isEmpty then false
  else
    match rest with
    | '.' :: rest2 =>
      let d2 := rest2.takeWhile Char.isDigit
      let rest3 := rest2.drop d2.length
      if d2.isEmpty then false else matchOptVersion rest3
    | _ => false

/-- A character allowed in a legacy archive category name. -/
def isCatChar (c : Char) : Bool := c.isAlpha || c == '.' || c == '-'

/-- Legacy `category/number` identifier shape, optionally versioned
(e.g. `math.GT/0309136`). -/
def matchLegacyId (l : List Char) : Bool :=
  let cat := l.takeWhile isCatChar
  let rest := l.drop cat.length
  if cat.isEmpty then false
  else
    match rest with
    | '/' :: rest2 =>
      let d := rest2.takeWhile Char.isDigit
      let rest3 := rest2.drop d.length
      if d.isEmpty then false else matchOptVersion rest3
    | _ => false

/-- An identifier in one of the two recognized shapes. -/
def matchesArchiveId (s : String) : Bool :=
  matchModernId s.data || matchLegacyId s.data

/-- The remainder of `l` after the first occurrence of `m`. -/
def afterMarker (m : List Char) : List Char → Option (List Char)
  | [] => if m.isEmpty then some [] else none
  | c :: t =>
    if m.isPrefixOf (c :: t) then some ((c :: t).drop m.length)
    else afterMarker m t

/-- Modelled from the spec: URL-pattern identifier derivation, step 2 of
the Identifier Extractor of spec §4.2.  The extractor is implemented in
the repository variant module `semantic_scholar_search/download.py`,
which is exercised by `tests/test_download.py` but is not present in the
source tree; per the spec the pattern recognizes the two identifier
shapes (modern dotted numeric, legacy category/number, optionally
versioned) in the archive's abstract-page URLs. -/
def idFromUrl (u : String) : Option String :=
  match afterMarker "arxiv.org/abs/".data u.data with
  | some rest =>
    let idStr := String.mk rest
    if matchesArchiveId idStr then some idStr else none
  | none => none

/-- Modelled from the spec: step 1 of the Identifier Extractor of spec
§4.2 — if the paper declares its source as the named archive and
carries a volume/locator field, strip the known `abs/` prefix and
return the (non-empty) result. -/
def idFromSourceHint : Option JournalRef → Option String
  | some jr =>
    if pyLower jr.name = "arxiv" then
      match jr.volume with
      | some v =>
        let v2 := if pyStartsWith v "abs/" then String.mk (v.data.drop 4) else v
        if v2 = "" then none else some v2
      | none => none
    else none
  | none => none

/-- Modelled from the spec: step 3 of the Identifier Extractor of spec
§4.2 — the structured external-identifier mapping keyed by the
archive's name. -/
def idFromExternalIds (ids : List (String × String)) : Option String :=
  match ids.lookup "ArXiv" with
  | some v => if v = "" then none else some v
  | none => none

/-- Modelled from the spec: step 4 of the Identifier Extractor of spec
§4.2 — each alternate-version URL tested with the same pattern as step
2, first match wins. -/
def idFromAlternates : List String → Option String
  | [] => none
  | u :: t =>
    match idFromUrl u with
    | some i => some i
    | none => idFromAlternates t

/-- Modelled from the spec: step 2 of the Identifier Extractor applied
to the paper landing-page URL field, `none` when the field is absent. -/
def urlDerivedId (p : ArchivePaperMeta) : Option String :=
  match p.url with
  | some u => idFromUrl u
  | none => none

/-- Modelled from the spec: the Identifier Extractor of spec §4.2
(`extract(paper) -> identifier | none`), missing from the source tree
(only its test `tests/test_download.py` is present).  Tries the four
metadata sources in the fixed precedence order and returns the first
non-empty identifier found, or none. -/
def extract (p : ArchivePaperMeta) : Option String :=
  match idFromSourceHint p.journal with
  | some i => some i
  | none =>
    match urlDerivedId p with
    | some i => some i
    | none =>
      match idFromExternalIds p.externalIds with
      | some i => some i
      | none => idFromAlternates p.alternateVersions

/-- Sum of the per-strategy success counters plus the failure counter. -/
def sumSucc (s : DownloadStats) : Nat :=
  s.open_access_success + s.semantic_reader_success + s.arxiv_success
    + s.failed

/-- Whether the open-access strategy's preconditions hold for `p`:
`paper.isOpenAccess and paper.openAccessPdf` is truthy and the extracted
`pdf_url` is truthy (download.py lines 128-134). -/
def oaAvailable (p : Paper) : Bool :=
  p.isOpenAccess &&
    (match p.openAccessPdf with
     | some ref =>
       match pdfUrlOf ref with
       | some u => !(u == "")
       | none => false
     | none => false)

/-! Concrete fixtures used by witnesses and counterexamples. -/

/-- A concrete non-bulk `Downloader` configuration. -/
def exDownloader : Downloader :=
  mkDownloader "q" false 1 1 "s" 0 "i" "o" none none

/-- A 200 `application/pdf` response whose body carries the PDF magic. -/
def exR200 : HttpResp :=
  { status := 200, contentType := "application/pdf"
    content := [37, 80, 68, 70, 45, 1] }

/-- A paper carrying both an open-access PDF reference and an arXiv
identifier. -/
def exPaperBoth : Paper :=
  { title := "T", isOpenAccess := true
    openAccessPdf := some (PdfRef.mapRef (some "https://e.com/p.pdf"))
    url := none, arxivId := some "1234.5678" }

/-- A paper with only an arXiv identifier. -/
def exPaperArxiv : Paper :=
  { title := "T", isOpenAccess := false, openAccessPdf := none
    url := none, arxivId := some "1234.5678" }

/-- Directory exists, open-access request succeeds with `exR200`, all
writes succeed. -/
def exEnvOAok : DownloadEnv :=
  { dirExists := true, oaResp := some exR200, oaWriteOk := true
    srSuccess := false, srContent := [], arxivWriteOk := true }

/-- Directory exists, all writes succeed. -/
def exEnvPlain : DownloadEnv :=
  { dirExists := true, oaResp := none, oaWriteOk := true
    srSuccess := false, srContent := [], arxivWriteOk := true }

/-- Directory exists but the arXiv links-file write raises. -/
def exEnvBadWrite : DownloadEnv :=
  { dirExists := true, oaResp := none, oaWriteOk := true
    srSuccess := false, srContent := [], arxivWriteOk := false }

/-- The links-file path of the `exDownloader`/title-`"T"` session. -/
def exTxtPath : String :=
  pyReplace (baseFilenameOf exDownloader "T") ".pdf" "_arxiv_links.txt"

/-- An open-access paper whose PDF request will raise. -/
def exOAPaperBadNet : Paper :=
  { title := "T", isOpenAccess := true
    openAccessPdf := some (PdfRef.attrRef (some "https://e.com/p.pdf"))
    url := none, arxivId := none }

/-- Directory exists but the open-access request raises. -/
def exEnvOARaises : DownloadEnv :=
  { dirExists := true, oaResp := none, oaWriteOk := true
    srSuccess := false, srContent := [], arxivWriteOk := true }

/-- Directory exists, the open-access request returns 404, all writes
succeed. -/
def exEnvBothOAFails : DownloadEnv :=
  { dirExists := true
    oaResp := some { status := 404, contentType := "text/html", content := [] }
    oaWriteOk := true, srSuccess := false, srContent := []
    arxivWriteOk := true }

/-- A 200 response labelled `Application/PDF` whose body lacks the PDF
signature. -/
def exRespMislabeled : HttpResp :=
  { status := 200, contentType := "Application/PDF", content := [1, 2, 3] }

/-- Generic-download environment serving only `exRespMislabeled`. -/
def exPdfEnvMislabeled : PdfDlEnv :=
  { firstResp := some exRespMislabeled, altResp := none }

/-- Extractor input with a source hint and a disagreeing landing URL. -/
def exMetaBoth : ArchivePaperMeta :=
  { journal := some { name := "arXiv", volume := some "abs/1234.5678" }
    url := some "https://arxiv.org/abs/9999.0001"
    externalIds := [], alternateVersions := [] }

/-- Extractor input with no identifier sources at all. -/
def exMetaEmpty : ArchivePaperMeta :=
  { journal := none, url := none, externalIds := []
    alternateVersions := [] }

/-- The target directory does not exist. -/
def exEnvNoDir : DownloadEnv :=
  { dirExists := false, oaResp := none, oaWriteOk := true
    srSuccess := false, srContent := [], arxivWriteOk := true }

lemma oaStep_cases (p : Paper) (env : DownloadEnv) (b : String)
    (st : TryState) :
    (oaStep p env b st).1.filename = st.filename ∧
    (oaStep p env b st).1.srAtt = st.srAtt ∧
    (oaStep p env b st).1.arxAtt = st.arxAtt ∧
    (((oaStep p env b st).1.success = st.success ∧
      (oaStep p env b st).1.method = st.method ∧
      (oaStep p env b st).1.stats = st.stats) ∨
     ((oaStep p env b st).2 = false ∧
      (oaStep p env b st).1.success = true ∧
      (oaStep p env b st).1.method = some "open_access" ∧
      (oaStep p env b st).1.stats =
        { st.stats with
            open_access_success := st.stats.open_access_success + 1 })) := by
  unfold oaStep
  rcases hpo : p.openAccessPdf with _ | ref <;> simp only [hpo]
  · simp
  · rcases hpu : pdfUrlOf ref with _ | u <;> simp only [hpu]
    · simp
    · rcases hr : env.oaResp with _ | r <;> simp only [hr] <;>
        repeat' split <;> try simp_all

/-- When the open-access preconditions hold, the strategy is attempted
(the instrumentation flag is set). -/
lemma oaStep_att (p : Paper) (env : DownloadEnv) (b : String)
    (st : TryState) (h : oaAvailable p = true) :
    (oaStep p env b st).1.oaAtt = true := by
  unfold oaAvailable at h
  unfold oaStep
  rcases hpo : p.openAccessPdf with _ | ref <;> simp only [hpo] at h ⊢
  · simp at h
  · rcases hpu : pdfUrlOf ref with _ | u <;> simp only [hpu] at h ⊢
    · simp at h
    · rcases hr : env.oaResp with _ | r <;> simp only [hr] <;>
        repeat' split <;> try simp_all

lemma srStep_cases (p : Paper) (env : DownloadEnv) (b : String)
    (st : TryState) :
    (srStep p env b st).filename = st.filename ∧
    (srStep p env b st).oaAtt = st.oaAtt ∧
    (srStep p env b st).arxAtt = st.arxAtt ∧
    (((srStep p env b st).success = st.success ∧
      (srStep p env b st).method = st.method ∧
      (srStep p env b st).stats = st.stats) ∨
     (st.success = false ∧
      (srStep p env b st).success = true ∧
      (srStep p env b st).method = some "semantic_reader" ∧
      (srStep p env b st).stats =
        { st.stats with
            semantic_reader_success :=
              st.stats.semantic_reader_success + 1 })) := by
  unfold srStep
  repeat' split <;> try simp_all

lemma arxivStep_cases (p : Paper) (env : DownloadEnv) (b : String)
    (st : TryState) :
    (arxivStep p env b st).1.oaAtt = st.oaAtt ∧
    (arxivStep p env b st).1.srAtt = st.srAtt ∧
    (((arxivStep p env b st).2 = false ∧
      (arxivStep p env b st).1.success = st.success ∧
      (arxivStep p env b st).1.method = st.method ∧
      (arxivStep p env b st).1.stats = st.stats ∧
      (arxivStep p env b st).1.filename = st.filename ∧
      (arxivStep p env b st).1.arxAtt = st.arxAtt) ∨
     (st.success = false ∧
      (arxivStep p env b st).1.arxAtt = true ∧
      (arxivStep p env b st).1.success = true ∧
      (arxivStep p env b st).1.method = some "arxiv" ∧
      (arxivStep p env b st).1.stats =
        { st.stats with arxiv_success := st.stats.arxiv_success + 1 } ∧
      (((arxivStep p env b st).2 = false ∧ env.arxivWriteOk = true ∧
        (arxivStep p env b st).1.filename =
          some (pyReplace b ".pdf" "_arxiv_links.txt")) ∨
       ((arxivStep p env b st).2 = true ∧ env.arxivWriteOk = false ∧
        (arxivStep p env b st).1.filename = st.filename)))) := by
  unfold arxivStep
  rcases haid : p.arxivId with _ | aid <;> simp only [haid]
  · simp
  · repeat' split <;> try simp_all

/-- Exhaustive outcome analysis of one run of the `try` block: either an
exception was caught (success cleared, filename cleared, failed
incremented, with the arXiv counter also incremented exactly when the
links-file write raised), or one strategy succeeded (its counter
incremented, the others untouched), or everything was skipped or failed
(failed incremented, filename cleared). -/
lemma tryPipeline_cases (p : Paper) (env : DownloadEnv) (b : String)
    (st0 : TryState) (h0 : st0.success = false)
    (hf : st0.filename.isSome = true) :
    ((tryPipeline p env b st0).2 = true ∧
     (tryPipeline p env b st0).1.success = false ∧
     (tryPipeline p env b st0).1.filename = none ∧
     (tryPipeline p env b st0).1.stats.failed = st0.stats.failed + 1 ∧
     (tryPipeline p env b st0).1.stats.total = st0.stats.total ∧
     (tryPipeline p env b st0).1.stats.open_access_success
       = st0.stats.open_access_success ∧
     (tryPipeline p env b st0).1.stats.semantic_reader_success
       = st0.stats.semantic_reader_success ∧
     (((tryPipeline p env b st0).1.stats.arxiv_success
         = st0.stats.arxiv_success ∧
       (tryPipeline p env b st0).1.arxAtt = st0.arxAtt) ∨
      ((tryPipeline p env b st0).1.stats.arxiv_success
         = st0.stats.arxiv_success + 1 ∧
       (tryPipeline p env b st0).1.arxAtt = true ∧
       env.arxivWriteOk = false))) ∨
    ((tryPipeline p env b st0).2 = false ∧
     (tryPipeline p env b st0).1.success = true ∧
     (tryPipeline p env b st0).1.filename.isSome = true ∧
     (tryPipeline p env b st0).1.stats.total = st0.stats.total ∧
     (tryPipeline p env b st0).1.stats.failed = st0.stats.failed ∧
     (((tryPipeline p env b st0).1.method = some "open_access" ∧
       (tryPipeline p env b st0).1.stats.open_access_success
         = st0.stats.open_access_success + 1 ∧
       (tryPipeline p env b st0).1.stats.semantic_reader_success
         = st0.stats.semantic_reader_success ∧
       (tryPipeline p env b st0).1.stats.arxiv_success
         = st0.stats.arxiv_success ∧
       (tryPipeline p env b st0).1.arxAtt = st0.arxAtt ∧
       (tryPipeline p env b st0).1.filename = st0.filename) ∨
      ((tryPipeline p env b st0).1.method = some "semantic_reader" ∧
       (tryPipeline p env b st0).1.stats.open_access_success
         = st0.stats.open_access_success ∧
       (tryPipeline p env b st0).1.stats.semantic_reader_success
         = st0.stats.semantic_reader_success + 1 ∧
       (tryPipeline p env b st0).1.stats.arxiv_success
         = st0.stats.arxiv_success ∧
       (tryPipeline p env b st0).1.arxAtt = st0.arxAtt ∧
       (tryPipeline p env b st0).1.filename = st0.filename) ∨
      ((tryPipeline p env b st0).1.method = some "arxiv" ∧
       (tryPipeline p env b st0).1.stats.open_access_success
         = st0.stats.open_access_success ∧
       (tryPipeline p env b st0).1.stats.semantic_reader_success
         = st0.stats.semantic_reader_success ∧
       (tryPipeline p env b st0).1.stats.arxiv_success
         = st0.stats.arxiv_success + 1 ∧
       (tryPipeline p env b st0).1.arxAtt = true ∧
       (tryPipeline p env b st0).1.filename
         = some (pyReplace b ".pdf" "_arxiv_links.txt")))) ∨
    ((tryPipeline p env b st0).2 = false ∧
     (tryPipeline p env b st0).1.success = false ∧
     (tryPipeline p env b st0).1.filename = none ∧
     (tryPipeline p env b st0).1.stats.total = st0.stats.total ∧
     (tryPipeline p env b st0).1.stats.open_access_success
       = st0.stats.open_access_success ∧
     (tryPipeline p env b st0).1.stats.semantic_reader_success
       = st0.stats.semantic_reader_success ∧
     (tryPipeline p env b st0).1.stats.arxiv_success
       = st0.stats.arxiv_success ∧
     (tryPipeline p env b st0).1.stats.failed = st0.stats.failed + 1 ∧
     (tryPipeline p env b st0).1.arxAtt = st0.arxAtt) := by
  rcases h1 : oaStep p env b st0 with ⟨st1, r1⟩
  have H1 := oaStep_cases p env b st0
  rw [h1] at H1
  dsimp only at H1
  obtain ⟨H1f, H1sr, H1ax, H1d⟩ := H1
  unfold tryPipeline
  rw [h1]
  cases r1 with
  | true =>
    dsimp only
    rcases H1d with ⟨H1s, H1m, H1st⟩ | ⟨H1r, _, _, _⟩
    · left
      simp [exnHandler, H1st, H1ax]
    · exact absurd H1r (by simp)
  | false =>
    have H2 := srStep_cases p env b st1
    obtain ⟨H2f, H2oa, H2ax, H2d⟩ := H2
    dsimp only
    rcases h3 : arxivStep p env b (srStep p env b st1) with ⟨st3, r3⟩
    have H3 := arxivStep_cases p env b (srStep p env b st1)
    rw [h3] at H3
    dsimp only at H3
    obtain ⟨H3oa, H3sr, H3d⟩ := H3
    cases r3 with
    | true =>
      dsimp only
      rcases H3d with ⟨H3r, _⟩ | ⟨Hs2, Hax3, Hsu3, Hm3, Hst3, Hin⟩
      · exact absurd H3r (by simp)
      · rcases Hin with ⟨H3r, _, _⟩ | ⟨_, Hwk, Hfn⟩
        · exact absurd H3r (by simp)
        · left
          rcases H2d with ⟨H2s, H2m, H2st⟩ | ⟨_, H2s, _, _⟩
          · rcases H1d with ⟨H1s, H1m, H1st⟩ | ⟨_, H1su, _, _⟩
            · simp [exnHandler, Hst3, H2st, H1st, Hax3, Hwk]
            · rw [H1su] at H2s; rw [H2s] at Hs2; simp at Hs2
          · rw [H2s] at Hs2; simp at Hs2
    | false =>
      dsimp only
      cases hs3 : st3.success with
      | false =>
        rcases H3d with ⟨_, H3s, H3m, H3st, H3fn, H3at⟩ |
            ⟨_, _, H3su, _, _, _⟩
        · rcases H2d with ⟨H2s, H2m, H2st⟩ | ⟨_, H2s, _, _⟩
          · rcases H1d with ⟨H1s, H1m, H1st⟩ | ⟨_, H1su, _, _⟩
            · right; right
              simp [hs3, H3st, H2st, H1st, H3at, H2ax, H1ax]
            · rw [H1su] at H2s
              rw [H2s] at H3s; rw [H3s] at hs3; simp at hs3
          · rw [H2s] at H3s; rw [H3s] at hs3; simp at hs3
        · rw [H3su] at hs3; simp at hs3
      | true =>
        right; left
        simp only [hs3, Bool.not_true, Bool.false_eq_true, if_false]
        rcases H3d with ⟨_, H3s, H3m, H3st, H3fn, H3at⟩ |
            ⟨Hs2, Hax3, Hsu3, Hm3, Hst3, Hin⟩
        · have h2succ : (srStep p env b st1).success = true := by
            rw [← H3s, hs3]
          rcases H2d with ⟨H2s, H2m, H2st⟩ | ⟨H2s0, H2su, H2m, H2st⟩
          · have h1succ : st1.success = true := by rw [← H2s, h2succ]
            rcases H1d with ⟨H1s, H1m, H1st⟩ | ⟨_, H1su, H1m, H1st⟩
            · rw [h1succ, h0] at H1s; simp at H1s
            · simp [hs3, H3fn, H3m, H3st, H2f, H2m, H2st, H1f, H1m, H1st,
                H3at, H2ax, H1ax, hf]
          · rcases H1d with ⟨H1s, H1m, H1st⟩ | ⟨_, H1su, H1m, H1st⟩
            · simp [hs3, H3fn, H3m, H3st, H2f, H2m, H2st, H1f, H1m, H1st,
                H3at, H2ax, H1ax, hf]
            · rw [H1su] at H2s0; simp at H2s0
        · rcases Hin with ⟨_, Hwk, Hfn⟩ | ⟨H3r, _, _⟩
          · rcases H2d with ⟨H2s, H2m, H2st⟩ | ⟨_, H2su, _, _⟩
            · rcases H1d with ⟨H1s, H1m, H1st⟩ | ⟨_, H1su, H1m, H1st⟩
              · simp [hs3, Hfn, Hm3, Hst3, H2st, H1st, Hax3]
              · rw [H1su] at H2s; rw [H2s] at Hs2; simp at Hs2
            · rw [H2su] at Hs2; simp at Hs2
          · exact absurd H3r (by simp)

/-- The `try` block never clears the open-access attempt flag set by the
first strategy. -/
lemma tryPipeline_oaAtt (p : Paper) (env : DownloadEnv) (b : String)
    (st0 : TryState) :
    (tryPipeline p env b st0).1.oaAtt = (oaStep p env b st0).1.oaAtt := by
  rcases h1 : oaStep p env b st0 with ⟨st1, r1⟩
  unfold tryPipeline
  rw [h1]
  cases r1 with
  | true => dsimp only; simp [exnHandler]
  | false =>
    have H2oa := (srStep_cases p env b st1).2.1
    dsimp only
    rcases h3 : arxivStep p env b (srStep p env b st1) with ⟨st3, r3⟩
    have H3oa := (arxivStep_cases p env b (srStep p env b st1)).1
    rw [h3] at H3oa
    dsimp only at H3oa
    cases r3 with
    | true => dsimp only; simp [exnHandler, H3oa, H2oa]
    | false =>
      dsimp only
      cases hs3 : st3.success <;> simp [hs3, H3oa, H2oa]

/-- When the directory exists, `download_paper` is the `try` block run
from the initial state, packaged by `mkResult`. -/
lemma downloadPaper_eq (d : Downloader) (stats : DownloadStats) (p : Paper)
    (env : DownloadEnv) (hdir : env.dirExists = true) :
    downloadPaper d stats p env =
      mkResult
        (tryPipeline p env (baseFilenameOf d p.title)
          (initTry stats (baseFilenameOf d p.title))).1
        (tryPipeline p env (baseFilenameOf d p.title)
          (initTry stats (baseFilenameOf d p.title))).2 := by
  unfold downloadPaper
  simp [hdir]

/-- The open-access step writes nothing unless it succeeds. -/
lemma oaStep_written_or (p : Paper) (env : DownloadEnv) (b : String)
    (st : TryState) :
    (oaStep p env b st).1.written = st.written ∨
    (oaStep p env b st).1.success = true := by
  unfold oaStep
  rcases hpo : p.openAccessPdf with _ | ref <;> simp only [hpo]
  · simp
  · rcases hpu : pdfUrlOf ref with _ | u <;> simp only [hpu]
    · simp
    · rcases hr : env.oaResp with _ | r <;> simp only [hr] <;>
        (repeat' split) <;> first | trivial | simp_all

/-- The Semantic Reader step writes nothing unless it succeeds. -/
lemma srStep_written_or (p : Paper) (env : DownloadEnv) (b : String)
    (st : TryState) :
    (srStep p env b st).written = st.written ∨
    (srStep p env b st).success = true := by
  unfold srStep
  (repeat' split) <;> first | trivial | simp_all

/-- C4: when the target directory exists, `db.record_paper` is invoked
exactly once per `download_paper` call — never zero times, never more
than once — with the resulting path (or none) and the success flag,
regardless of the outcome. -/
theorem recorder_called_exactly_once (d : Downloader)
    (stats : DownloadStats) (p : Paper) (env : DownloadEnv)
    (hdir : env.dirExists = true) :
    ∃ pa me, (downloadPaper d stats p env).ret = Except.ok (pa, me) ∧
      (downloadPaper d stats p env).recorded = [(pa, pa.isSome)] := by
  rw [downloadPaper_eq d stats p env hdir]
  set T := tryPipeline p env (baseFilenameOf d p.title)
    (initTry stats (baseFilenameOf d p.title)) with hT
  have key := tryPipeline_cases p env (baseFilenameOf d p.title)
    (initTry stats (baseFilenameOf d p.title)) (by simp [initTry])
    (by simp [initTry])
  rw [← hT] at key
  refine ⟨T.1.filename, T.1.method, rfl, ?_⟩
  simp only [mkResult]
  have hs : T.1.success = T.1.filename.isSome := by
    rcases key with ⟨_, hsu, hfn, _⟩ | ⟨_, hsu, hfn, _⟩ | ⟨_, hsu, hfn, _⟩ <;>
      rw [hsu, hfn] <;> simp
  rw [hs]

/-- C4 witness: a concrete call on an arXiv-only paper records exactly
one entry, carrying the returned path and the success flag. -/
theorem recorder_called_exactly_once_witness :
    ∃ pa me,
      (downloadPaper exDownloader initStats exPaperArxiv exEnvPlain).ret
        = Except.ok (pa, me) ∧
      (downloadPaper exDownloader initStats exPaperArxiv
        exEnvPlain).recorded = [(pa, pa.isSome)] :=
  recorder_called_exactly_once exDownloader initStats exPaperArxiv
    exEnvPlain (by decide)

/-- C6: when the target directory exists, no exception escapes
`download_paper` (the return is always a normal pair), and if an
exception was caught inside the strategies the call is converted into
that paper's overall failure: path none and failure counter incremented
by one. -/
theorem strategy_exception_contained (d : Downloader)
    (stats : DownloadStats) (p : Paper) (env : DownloadEnv)
    (hdir : env.dirExists = true) :
    (∃ pa me, (downloadPaper d stats p env).ret = Except.ok (pa, me)) ∧
    ((downloadPaper d stats p env).raised = true →
      (∃ me, (downloadPaper d stats p env).ret = Except.ok (none, me)) ∧
      (downloadPaper d stats p env).stats.failed = stats.failed + 1) := by
  rw [downloadPaper_eq d stats p env hdir]
  set T := tryPipeline p env (baseFilenameOf d p.title)
    (initTry stats (baseFilenameOf d p.title)) with hT
  have key := tryPipeline_cases p env (baseFilenameOf d p.title)
    (initTry stats (baseFilenameOf d p.title)) (by simp [initTry])
    (by simp [initTry])
  rw [← hT] at key
  simp only [mkResult]
  constructor
  · exact ⟨T.1.filename, T.1.method, rfl⟩
  · intro hr
    rcases key with ⟨_, _, hfn, hfail, _⟩ | ⟨h2, _⟩ | ⟨h2, _⟩
    · refine ⟨⟨T.1.method, by rw [hfn]⟩, ?_⟩
      rw [hfail]
      simp [initTry]
    · rw [hr] at h2; exact absurd h2 (by simp)
    · rw [hr] at h2; exact absurd h2 (by simp)

/-- C6 witness: a concrete call in which the open-access request raises
is caught, returns a normal pair with path none, and counts one
failure. -/
theorem strategy_exception_contained_witness :
    (∃ pa me, (downloadPaper exDownloader initStats exOAPaperBadNet
      exEnvOARaises).ret = Except.ok (pa, me)) ∧
    ((downloadPaper exDownloader initStats exOAPaperBadNet
        exEnvOARaises).raised = true →
      (∃ me, (downloadPaper exDownloader initStats exOAPaperBadNet
        exEnvOARaises).ret = Except.ok (none, me)) ∧
      (downloadPaper exDownloader initStats exOAPaperBadNet
        exEnvOARaises).stats.failed = initStats.failed + 1) :=
  strategy_exception_contained exDownloader initStats exOAPaperBadNet
    exEnvOARaises (by decide)

/-- C10: when the target directory does not exist, the `ValueError` is
raised after the total counter was already incremented and before any
strategy or Recorder call: nothing is attempted, nothing is recorded,
the failure counter is unchanged, and the statistics equality
`total = sum(successes) + failed` is broken. -/
theorem missing_directory_breaks_invariant (d : Downloader)
    (stats : DownloadStats) (p : Paper) (env : DownloadEnv)
    (hnd : env.dirExists = false) (hinv : statsInvariant stats) :
    (downloadPaper d stats p env).ret = Except.error () ∧
    (downloadPaper d stats p env).stats.total = stats.total + 1 ∧
    (downloadPaper d stats p env).stats.open_access_success
      = stats.open_access_success ∧
    (downloadPaper d stats p env).stats.semantic_reader_success
      = stats.semantic_reader_success ∧
    (downloadPaper d stats p env).stats.arxiv_success
      = stats.arxiv_success ∧
    (downloadPaper d stats p env).stats.failed = stats.failed ∧
    (downloadPaper d stats p env).recorded = [] ∧
    (downloadPaper d stats p env).oaAtt = false ∧
    (downloadPaper d stats p env).srAtt = false ∧
    (downloadPaper d stats p env).arxAtt = false ∧
    ¬ statsInvariant (downloadPaper d stats p env).stats := by
  unfold statsInvariant at hinv
  unfold downloadPaper
  simp [hnd, statsInvariant]
  omega

/-- C10 witness: a concrete call with a missing directory increments
only the total counter, records nothing, and breaks the invariant. -/
theorem missing_directory_breaks_invariant_witness :
    (downloadPaper exDownloader initStats exPaperArxiv exEnvNoDir).ret
      = Except.error () ∧
    (downloadPaper exDownloader initStats exPaperArxiv
      exEnvNoDir).stats.total = initStats.total + 1 ∧
    (downloadPaper exDownloader initStats exPaperArxiv
      exEnvNoDir).stats.open_access_success
      = initStats.open_access_success ∧
    (downloadPaper exDownloader initStats exPaperArxiv
      exEnvNoDir).stats.semantic_reader_success
      = initStats.semantic_reader_success ∧
    (downloadPaper exDownloader initStats exPaperArxiv
      exEnvNoDir).stats.arxiv_success = initStats.arxiv_success ∧
    (downloadPaper exDownloader initStats exPaperArxiv
      exEnvNoDir).stats.failed = initStats.failed ∧
    (downloadPaper exDownloader initStats exPaperArxiv
      exEnvNoDir).recorded = [] ∧
    (downloadPaper exDownloader initStats exPaperArxiv
      exEnvNoDir).oaAtt = false ∧
    (downloadPaper exDownloader initStats exPaperArxiv
      exEnvNoDir).srAtt = false ∧
    (downloadPaper exDownloader initStats exPaperArxiv
      exEnvNoDir).arxAtt = false ∧
    ¬ statsInvariant
        (downloadPaper exDownloader initStats exPaperArxiv
          exEnvNoDir).stats :=
  missing_directory_breaks_invariant exDownloader initStats exPaperArxiv
    exEnvNoDir (by decide) (by decide)

/-- C3 counterexample: a call whose preconditions hold (directory
exists) on an arXiv-only paper whose links-file write raises: the arXiv
branch increments its success counter before writing, the handler then
also increments the failure counter, and the invariant
`total = sum(successes) + failed` fails after the call. -/
theorem stats_invariant_counterexample :
    statsInvariant initStats ∧
    exEnvBadWrite.dirExists = true ∧
    (downloadPaper exDownloader initStats exPaperArxiv
      exEnvBadWrite).stats.total = 1 ∧
    (downloadPaper exDownloader initStats exPaperArxiv
      exEnvBadWrite).stats.arxiv_success = 1 ∧
    (downloadPaper exDownloader initStats exPaperArxiv
      exEnvBadWrite).stats.failed = 1 ∧
    ¬ statsInvariant
        (downloadPaper exDownloader initStats exPaperArxiv
          exEnvBadWrite).stats := by
  decide

/-- C3 (amended): after every call whose preconditions hold and in
which the arXiv links-file write does not raise, the statistics satisfy
`total = sum(per-strategy successes) + failed`; the only violation is
an exception raised between the arXiv success-counter increment and the
completion of the links-file write. -/
theorem stats_invariant_preserved (d : Downloader)
    (stats : DownloadStats) (p : Paper) (env : DownloadEnv)
    (hdir : env.dirExists = true) (hwk : env.arxivWriteOk = true)
    (hinv : statsInvariant stats) :
    statsInvariant (downloadPaper d stats p env).stats := by
  rw [downloadPaper_eq d stats p env hdir]
  set T := tryPipeline p env (baseFilenameOf d p.title)
    (initTry stats (baseFilenameOf d p.title)) with hT
  have key := tryPipeline_cases p env (baseFilenameOf d p.title)
    (initTry stats (baseFilenameOf d p.title)) (by simp [initTry])
    (by simp [initTry])
  rw [← hT] at key
  simp only [initTry] at key
  simp only [mkResult]
  unfold statsInvariant at hinv ⊢
  rcases key with ⟨_, _, _, k1, k2, k3, k4, ⟨k5, _⟩ | ⟨_, _, kw⟩⟩ |
      ⟨_, _, _, k1, k2, ⟨_, k3, k4, k5, _⟩ | ⟨_, k3, k4, k5, _⟩ |
        ⟨_, k3, k4, k5, _⟩⟩ |
      ⟨_, _, _, k1, k2, k3, k4, k5, _⟩ <;>
    first
      | (rw [hwk] at kw; exact absurd kw (by simp))
      | omega

/-- C3 (amended) witness: a concrete exception-free call preserves the
invariant. -/
theorem stats_invariant_preserved_witness :
    statsInvariant
      (downloadPaper exDownloader initStats exPaperArxiv
        exEnvPlain).stats :=
  stats_invariant_preserved exDownloader initStats exPaperArxiv
    exEnvPlain (by decide) (by decide) (by decide)

/-- C1 counterexample: a paper with both an arXiv identifier and an
open-access PDF link; `download_paper` attempts and succeeds with the
open-access strategy first and never attempts the arXiv strategy, so
Archive-Direct is not tried first. -/
theorem strategy_priority_counterexample :
    oaAvailable exPaperBoth = true ∧
    exPaperBoth.arxivId.isSome = true ∧
    (downloadPaper exDownloader initStats exPaperBoth exEnvOAok).oaAtt
      = true ∧
    (downloadPaper exDownloader initStats exPaperBoth exEnvOAok).arxAtt
      = false ∧
    (downloadPaper exDownloader initStats exPaperBoth exEnvOAok).ret
      = Except.ok (some (baseFilenameOf exDownloader "T"),
          some "open_access") := by
  decide

/-- C1 (amended): for every paper carrying both an arXiv identifier and
an open-access PDF link, `download_paper` tries Open-Access-Link first,
and attempts the arXiv strategy only if neither the open-access nor the
Semantic Reader strategy succeeded; when Open-Access-Link succeeds the
arXiv strategy is not attempted. -/
theorem strategy_priority_oa_first (d : Downloader)
    (stats : DownloadStats) (p : Paper) (env : DownloadEnv)
    (hdir : env.dirExists = true) (hoa : oaAvailable p = true)
    (harx : p.arxivId.isSome = true) :
    (downloadPaper d stats p env).oaAtt = true ∧
    ((downloadPaper d stats p env).arxAtt = true →
      (downloadPaper d stats p env).stats.open_access_success
        = stats.open_access_success ∧
      (downloadPaper d stats p env).stats.semantic_reader_success
        = stats.semantic_reader_success) ∧
    ((downloadPaper d stats p env).stats.open_access_success
        = stats.open_access_success + 1 →
      (downloadPaper d stats p env).arxAtt = false) := by
  rw [downloadPaper_eq d stats p env hdir]
  set T := tryPipeline p env (baseFilenameOf d p.title)
    (initTry stats (baseFilenameOf d p.title)) with hT
  have key := tryPipeline_cases p env (baseFilenameOf d p.title)
    (initTry stats (baseFilenameOf d p.title)) (by simp [initTry])
    (by simp [initTry])
  rw [← hT] at key
  simp only [initTry] at key
  simp only [mkResult]
  refine ⟨?_, ?_, ?_⟩
  · rw [hT, tryPipeline_oaAtt]
    exact oaStep_att p env _ _ hoa
  · intro hax
    rcases key with ⟨_, _, _, _, _, k3, k4, ⟨_, k6⟩ | ⟨_, _, _⟩⟩ |
        ⟨_, _, _, _, _, ⟨_, k3, k4, _, k6, _⟩ | ⟨_, k3, k4, _, k6, _⟩ |
          ⟨_, k3, k4, _, _, _⟩⟩ |
        ⟨_, _, _, _, k3, k4, _, _, k6⟩ <;>
      first
        | (rw [hax] at k6; exact absurd k6 (by simp))
        | exact ⟨k3, k4⟩
  · intro hoa1
    rcases key with ⟨_, _, _, _, _, k3, _, ⟨_, k6⟩ | ⟨_, k6, _⟩⟩ |
        ⟨_, _, _, _, _, ⟨_, k3, _, _, k6, _⟩ | ⟨_, k3, _, _, k6, _⟩ |
          ⟨_, k3, _, _, k6, _⟩⟩ |
        ⟨_, _, _, _, k3, _, _, _, k6⟩ <;>
      first
        | (rw [k3] at hoa1; omega)
        | (rw [k6]; rfl)
        | rw [k6]

/-- C1 (amended) witness: with both sources available and the
open-access response failing, the open-access strategy is attempted
first; the succeeding arXiv attempt leaves the open-access and Semantic
Reader counters untouched. -/
theorem strategy_priority_oa_first_witness :
    (downloadPaper exDownloader initStats exPaperBoth
      exEnvBothOAFails).oaAtt = true ∧
    ((downloadPaper exDownloader initStats exPaperBoth
        exEnvBothOAFails).arxAtt = true →
      (downloadPaper exDownloader initStats exPaperBoth
        exEnvBothOAFails).stats.open_access_success
        = initStats.open_access_success ∧
      (downloadPaper exDownloader initStats exPaperBoth
        exEnvBothOAFails).stats.semantic_reader_success
        = initStats.semantic_reader_success) ∧
    ((downloadPaper exDownloader initStats exPaperBoth
        exEnvBothOAFails).stats.open_access_success
        = initStats.open_access_success + 1 →
      (downloadPaper exDownloader initStats exPaperBoth
        exEnvBothOAFails).arxAtt = false) :=
  strategy_priority_oa_first exDownloader initStats exPaperBoth
    exEnvBothOAFails (by decide) (by decide) (by decide)

/-- C2 counterexample: for a paper with an arXiv identifier whose
archive branch "succeeds", `download_paper` does not write the
retrieved binary content to `<base_filename>.pdf`: it writes only a
links text file and returns that `_arxiv_links.txt` path (with method
`"arxiv"`), not the `.pdf` path. -/
theorem archive_writes_pdf_counterexample :
    (downloadPaper exDownloader initStats exPaperArxiv exEnvPlain).ret
      = Except.ok (some exTxtPath, some "arxiv") ∧
    exTxtPath ≠ baseFilenameOf exDownloader "T" ∧
    List.map Prod.fst
      (downloadPaper exDownloader initStats exPaperArxiv
        exEnvPlain).written = [exTxtPath] ∧
    (downloadPaper exDownloader initStats exPaperArxiv
      exEnvPlain).stats.arxiv_success = 1 := by
  decide

/-- C2 (amended): for every paper carrying an arXiv identifier
attribute for which no earlier strategy succeeds in the call — whether
the open-access and Semantic-Reader attempts were skipped or ran and
failed (`hnoraise`: the open-access attempt did not raise; `hnosucc`:
after the first two strategies success is still false) — 
`download_paper` writes a links text file at `<base_filename>` with
`.pdf` replaced by `_arxiv_links.txt` (no PDF bytes are downloaded),
returns that text-file path with method `"arxiv"`, and increments the
arXiv success counter by one. -/
theorem archive_writes_links_file (d : Downloader)
    (stats : DownloadStats) (p : Paper) (aid : String)
    (env : DownloadEnv) (hdir : env.dirExists = true)
    (hwk : env.arxivWriteOk = true) (harx : p.arxivId = some aid)
    (hnoraise : (oaStep p env (baseFilenameOf d p.title)
      (initTry stats (baseFilenameOf d p.title))).2 = false)
    (hnosucc : (srStep p env (baseFilenameOf d p.title)
      (oaStep p env (baseFilenameOf d p.title)
        (initTry stats (baseFilenameOf d p.title))).1).success
      = false) :
    (downloadPaper d stats p env).ret
      = Except.ok
          (some (pyReplace (baseFilenameOf d p.title) ".pdf"
            "_arxiv_links.txt"), some "arxiv") ∧
    (downloadPaper d stats p env).stats.arxiv_success
      = stats.arxiv_success + 1 ∧
    (downloadPaper d stats p env).written
      = [(pyReplace (baseFilenameOf d p.title) ".pdf"
            "_arxiv_links.txt",
          FileData.txt (arxivLinksText p.title (pyStrip aid)
            ("https://arxiv.org/abs/" ++ pyStrip aid)
            ("https://arxiv.org/pdf/" ++ pyStrip aid ++ ".pdf")))] := by
  rw [downloadPaper_eq d stats p env hdir]
  set b := baseFilenameOf d p.title with hb
  set st0 := initTry stats b with hst0
  rcases h1 : oaStep p env b st0 with ⟨st1, r1⟩
  rw [h1] at hnoraise hnosucc
  dsimp only at hnoraise hnosucc
  subst hnoraise
  have H1 := oaStep_cases p env b st0
  rw [h1] at H1
  dsimp only at H1
  obtain ⟨H1f, _, _, H1d⟩ := H1
  have H2 := srStep_cases p env b st1
  obtain ⟨H2f, _, _, H2d⟩ := H2
  have hs1 : st1.success = false := by
    rcases H2d with ⟨h2s, _, _⟩ | ⟨_, h2su, _, _⟩
    · rw [← h2s]; exact hnosucc
    · rw [h2su] at hnosucc; exact absurd hnosucc (by simp)
  have hst1 : st1.stats = { stats with total := stats.total + 1 } := by
    rcases H1d with ⟨_, _, h⟩ | ⟨_, h, _, _⟩
    · rw [h, hst0]; rfl
    · rw [h] at hs1; exact absurd hs1 (by simp)
  have hw1 : st1.written = [] := by
    rcases oaStep_written_or p env b st0 with h | h
    · rw [h1] at h; dsimp only at h; rw [h, hst0]; rfl
    · rw [h1] at h; dsimp only at h
      rw [h] at hs1; exact absurd hs1 (by simp)
  have hw2 : (srStep p env b st1).written = [] := by
    rcases srStep_written_or p env b st1 with h | h
    · rw [h, hw1]
    · rw [h] at hnosucc; exact absurd hnosucc (by simp)
  have hst2 : (srStep p env b st1).stats
      = { stats with total := stats.total + 1 } := by
    rcases H2d with ⟨_, _, h⟩ | ⟨_, h2su, _, _⟩
    · rw [h, hst1]
    · rw [h2su] at hnosucc; exact absurd hnosucc (by simp)
  have hfn2 : (srStep p env b st1).filename = some b := by
    rw [H2f, H1f, hst0]; rfl
  unfold tryPipeline
  rw [h1]
  dsimp only
  unfold arxivStep
  rw [harx]
  dsimp only
  simp [hnosucc, hwk, mkResult, hw2, hst2, hfn2]

/-- C2 (amended) witness: a paper with both an open-access link and an
arXiv identifier, whose open-access attempt runs and fails with a 404,
falls through to the arXiv branch: the links-file path is returned with
method arxiv, the counter is incremented, and only the text manifest is
written. -/
theorem archive_writes_links_file_witness :
    (downloadPaper exDownloader initStats exPaperBoth
      exEnvBothOAFails).ret
      = Except.ok
          (some (pyReplace (baseFilenameOf exDownloader
            exPaperBoth.title) ".pdf" "_arxiv_links.txt"),
           some "arxiv") ∧
    (downloadPaper exDownloader initStats exPaperBoth
      exEnvBothOAFails).stats.arxiv_success
      = initStats.arxiv_success + 1 ∧
    (downloadPaper exDownloader initStats exPaperBoth
      exEnvBothOAFails).written
      = [(pyReplace (baseFilenameOf exDownloader exPaperBoth.title)
            ".pdf" "_arxiv_links.txt",
          FileData.txt (arxivLinksText exPaperBoth.title
            (pyStrip "1234.5678")
            ("https://arxiv.org/abs/" ++ pyStrip "1234.5678")
            ("https://arxiv.org/pdf/" ++ pyStrip "1234.5678"
              ++ ".pdf")))] :=
  archive_writes_links_file exDownloader initStats exPaperBoth
    "1234.5678" exEnvBothOAFails (by decide) (by decide) (by decide)
    (by decide) (by decide)

/-- C8: the open-access strategy extracts the PDF URL from either shape
of `openAccessPdf` (attribute-bearing object or plain mapping), accepts
the download exactly when the HTTP status is 200 and the declared
content type matches `application/pdf` as a case-insensitive prefix —
writing the response content to `<base_filename>.pdf` — and otherwise
leaves the paper unwritten and its counter untouched. -/
theorem oa_link_shapes_and_accept (d : Downloader)
    (stats : DownloadStats) (title u : String) (r : HttpResp)
    (env : DownloadEnv) (ref : PdfRef) (hdir : env.dirExists = true)
    (hresp : env.oaResp = some r) (hwrite : env.oaWriteOk = true)
    (href : ref = PdfRef.attrRef (some u) ∨ ref = PdfRef.mapRef (some u))
    (hu : u ≠ "") :
    pdfUrlOf ref = some u ∧
    ((r.status == 200 &&
        pyStartsWith (pyLower r.contentType) "application/pdf") = true →
      (downloadPaper d stats ⟨title, true, some ref, none, none⟩
        env).ret
        = Except.ok (some (baseFilenameOf d title),
            some "open_access") ∧
      (downloadPaper d stats ⟨title, true, some ref, none, none⟩
        env).written
        = [(baseFilenameOf d title, FileData.bin r.content)]) ∧
    ((r.status == 200 &&
        pyStartsWith (pyLower r.contentType) "application/pdf")
        = false →
      (downloadPaper d stats ⟨title, true, some ref, none, none⟩
        env).ret = Except.ok (none, none) ∧
      (downloadPaper d stats ⟨title, true, some ref, none, none⟩
        env).written = [] ∧
      (downloadPaper d stats ⟨title, true, some ref, none, none⟩
        env).stats.open_access_success
        = stats.open_access_success) := by
  refine ⟨?_, ?_, ?_⟩
  · rcases href with h | h <;> rw [h] <;> rfl
  · intro hacc
    rw [downloadPaper_eq d stats ⟨title, true, some ref, none, none⟩
      env hdir]
    unfold tryPipeline oaStep srStep arxivStep
    rcases href with h | h <;> subst h <;>
      simp [initTry, mkResult, hresp, hacc, hwrite, pdfUrlOf, hu]
  · intro hacc
    rw [downloadPaper_eq d stats ⟨title, true, some ref, none, none⟩
      env hdir]
    unfold tryPipeline oaStep srStep arxivStep
    rcases href with h | h <;> subst h <;>
      simp [initTry, mkResult, hresp, hacc, hwrite, pdfUrlOf, hu]

/-- C8 witness: the mapping shape with a 200 `application/pdf` response
is accepted and written to the `.pdf` base filename. -/
theorem oa_link_shapes_and_accept_witness :
    pdfUrlOf (PdfRef.mapRef (some "https://e.com/p.pdf"))
      = some "https://e.com/p.pdf" ∧
    ((exR200.status == 200 &&
        pyStartsWith (pyLower exR200.contentType) "application/pdf")
        = true →
      (downloadPaper exDownloader initStats
        ⟨"T", true, some (PdfRef.mapRef (some "https://e.com/p.pdf")),
          none, none⟩ exEnvOAok).ret
        = Except.ok (some (baseFilenameOf exDownloader "T"),
            some "open_access") ∧
      (downloadPaper exDownloader initStats
        ⟨"T", true, some (PdfRef.mapRef (some "https://e.com/p.pdf")),
          none, none⟩ exEnvOAok).written
        = [(baseFilenameOf exDownloader "T",
            FileData.bin exR200.content)]) ∧
    ((exR200.status == 200 &&
        pyStartsWith (pyLower exR200.contentType) "application/pdf")
        = false →
      (downloadPaper exDownloader initStats
        ⟨"T", true, some (PdfRef.mapRef (some "https://e.com/p.pdf")),
          none, none⟩ exEnvOAok).ret = Except.ok (none, none) ∧
      (downloadPaper exDownloader initStats
        ⟨"T", true, some (PdfRef.mapRef (some "https://e.com/p.pdf")),
          none, none⟩ exEnvOAok).written = [] ∧
      (downloadPaper exDownloader initStats
        ⟨"T", true, some (PdfRef.mapRef (some "https://e.com/p.pdf")),
          none, none⟩ exEnvOAok).stats.open_access_success
        = initStats.open_access_success) :=
  oa_link_shapes_and_accept exDownloader initStats "T"
    "https://e.com/p.pdf" exR200 exEnvOAok
    (PdfRef.mapRef (some "https://e.com/p.pdf")) (by decide) rfl rfl
    (Or.inr rfl) (by decide)

/-- The generic PDF download either succeeds having written exactly one
file whose bytes start with the PDF signature, or fails having written
nothing. -/
lemma handlePdf_outcome (u b : String) (env : PdfDlEnv) :
    (∃ c, handlePdfDownload u b env = (true, [(b, FileData.bin c)]) ∧
      startsWithMagic c = true) ∨
    handlePdfDownload u b env = (false, []) := by
  unfold handlePdfDownload
  rcases hE : env.firstResp with _ | r
  · right; rfl
  · dsimp only
    split
    · right; rfl
    · split
      next hopt => right; rfl
      next c hopt =>
        split
        next hm => left; exact ⟨c, rfl, hm⟩
        next hm => right; rfl

/-- C7: the generic URL download path writes a file and reports success
only when the bytes it settles on begin with the 5-byte `%PDF-`
signature; in particular a non-error response whose declared content
type contains `application/pdf` but whose body lacks the signature is
rejected with nothing written. -/
theorem generic_url_requires_pdf_magic (u b : String) (env : PdfDlEnv) :
    ((handlePdfDownload u b env).1 = true →
      ∃ c, (handlePdfDownload u b env).2 = [(b, FileData.bin c)] ∧
        startsWithMagic c = true) ∧
    (∀ r, env.firstResp = some r → r.status < 400 →
      strContainsSub (pyLower r.contentType) "application/pdf" = true →
      startsWithMagic r.content = false →
      handlePdfDownload u b env = (false, [])) := by
  constructor
  · intro h
    rcases handlePdf_outcome u b env with ⟨c, hc, hm⟩ | hfail
    · exact ⟨c, by rw [hc], hm⟩
    · rw [hfail] at h; simp at h
  · intro r hr hst hct hm
    unfold handlePdfDownload
    rw [hr]
    dsimp only
    have hnot : ¬ (r.status ≥ 400) := by omega
    simp [hnot, hct, hm]

/-- C7 witness: a 200 response labelled `Application/PDF` whose body
does not begin with `%PDF-` is rejected with nothing written. -/
theorem generic_url_requires_pdf_magic_witness :
    handlePdfDownload "https://e.com/x" "b.pdf" exPdfEnvMislabeled
      = (false, []) :=
  (generic_url_requires_pdf_magic "https://e.com/x" "b.pdf"
      exPdfEnvMislabeled).2 exRespMislabeled rfl (by decide) (by decide)
    (by decide)

/-- C5: in the spec-modelled identifier extractor, a source-hint
identifier wins over a URL-pattern-derived identifier even when both
are present and differ, and extraction returns none when all four
sources are absent or fail to match. -/
theorem extractor_precedence (p q : ArchivePaperMeta) (i j : String)
    (hp : idFromSourceHint p.journal = some i)
    (hpj : urlDerivedId p = some j) (hij : i ≠ j)
    (hq1 : idFromSourceHint q.journal = none)
    (hq2 : urlDerivedId q = none)
    (hq3 : idFromExternalIds q.externalIds = none)
    (hq4 : idFromAlternates q.alternateVersions = none) :
    extract p = some i ∧ extract q = none := by
  refine ⟨?_, ?_⟩ <;> simp [extract, hp, hq1, hq2, hq3, hq4]

/-- C5 witness: a paper whose source hint (`abs/1234.5678`) and
landing-page URL (`9999.0001`) disagree extracts the source-hint
identifier, and a paper with no sources extracts none. -/
theorem extractor_precedence_witness :
    extract exMetaBoth = some "1234.5678" ∧ extract exMetaEmpty = none :=
  extractor_precedence exMetaBoth exMetaEmpty "1234.5678" "9999.0001"
    (by decide) (by decide) (by decide) (by decide) (by decide)
    (by decide) (by decide)

/-- C9: when the last archive request was `t < 3` seconds ago, the rate
limiter blocks for exactly `3 - t` seconds, and the stored last-request
timestamp is the clock sample taken after the wait completes (at least
`now` plus the sleep, and strictly after `now`), not the pre-wait
sample. -/
theorem rate_limiter_blocks (lastReq now eps t : ℚ) (heps : 0 ≤ eps)
    (ht : now - lastReq = t) (hlt : t < 3) :
    (respectArxivRateLimit lastReq now eps).1 = 3 - t ∧
    (respectArxivRateLimit lastReq now eps).2
      = now + (respectArxivRateLimit lastReq now eps).1 + eps ∧
    now + (respectArxivRateLimit lastReq now eps).1
      ≤ (respectArxivRateLimit lastReq now eps).2 ∧
    now < (respectArxivRateLimit lastReq now eps).2 := by
  subst ht
  unfold respectArxivRateLimit ARXIV_RATE_LIMIT
  dsimp only
  rw [if_pos hlt]
  refine ⟨rfl, rfl, by linarith, by linarith⟩

/-- C9 witness: last request 1 second ago (`lastReq = 0`, `now = 1`)
blocks for 2 seconds and stores the post-wait sample `3`. -/
theorem rate_limiter_blocks_witness :
    (respectArxivRateLimit 0 1 0).1 = 3 - 1 ∧
    (respectArxivRateLimit 0 1 0).2
      = 1 + (respectArxivRateLimit 0 1 0).1 + 0 ∧
    1 + (respectArxivRateLimit 0 1 0).1
      ≤ (respectArxivRateLimit 0 1 0).2 ∧
    (1 : ℚ) < (respectArxivRateLimit 0 1 0).2 :=
  rate_limiter_blocks 0 1 0 1 (by norm_num) (by norm_num) (by norm_num)

end SSS
